import Mathlib

/-!
A shallow embedding of the Ctrl.js element-lifecycle library.

The repository holds two near-duplicate variants of the same design:
the variant in src/unnamed/part_000 (with load/unload callbacks and a
loading spinner) and the older variant in src/Ctrl.js (show/hide only).
The embedding below models both where a claim cites both.

User callbacks (load, show, hide, unload) are opaque: they are modelled
by their outcome (`none` = the returned promise resolves, `some e` = it
rejects with error `e`).  The hide callback additionally distinguishes a
synchronous throw from an asynchronous rejection, because `makeHide`
wraps it in `Promise.resolve(hide(el)).then(...)` without awaiting it,
so the two behave differently there.

Each run of a lifecycle trigger is recorded as a list of atomic actions
(`Act`): property-bag writes, `dispatchEvent` calls, user-callback
invocations (with the number of arguments passed), loading-spinner calls
and the removal of the "resume" listener.  The action list captures the
relative order of state updates and notifications, which several claims
are about.
-/

namespace Ctrl

/-- Error values raised or rejected by user callbacks. -/
abbrev Err := Nat

/-- Lifecycle notifications (`CustomEvent` names).  The error events carry
the `detail` attached by the dispatch site: `some e` in the part_000
variant (`new CustomEvent("showError", { detail: e })`), `none` in the
Ctrl.js variant (`new CustomEvent("showError")`, no detail). -/
inductive Ev
  | loading
  | loaded
  | loadError (detail : Option Err)
  | showing
  | shown
  | showError (detail : Option Err)
  | hidden
  | hideError (detail : Option Err)
  deriving DecidableEq

/-- Atomic observable actions of a lifecycle-trigger run, in program order.
The `call*` actions record the number of arguments the library passes to
the user callback. -/
inductive Act
  | setLoaded (b : Bool)
  | setLoading (b : Bool)
  | setShown (b : Bool)
  | setShowPending (b : Bool)
  | setHidePending (b : Bool)
  | emit (ev : Ev)
  | callUserLoad (argc : Nat)
  | callUserShow (argc : Nat)
  | callUserHide (argc : Nat)
  | callUnload (argc : Nat)
  | spinnerShow
  | spinnerHide
  | removeResume
  deriving DecidableEq

/-- The per-element lifecycle property bag that `el` (part_000 variant)
installs: `{...props, loaded: false, loading: false, shown: false,
showPending: false, hidePending: false}`. -/
structure Props where
  loaded : Bool
  loading : Bool
  shown : Bool
  showPending : Bool
  hidePending : Bool
  deriving DecidableEq

/-- The property bag right after `el` creates an element that is not yet
in the document: every lifecycle flag is false. -/
def initProps : Props :=
  { loaded := false, loading := false, shown := false
    showPending := false, hidePending := false }

/-- One uninterrupted run of the closure returned by `makeLoad(load,
loadingSpinner)` (part_000, lines 113-136), given the outcome `loadCb` of
the user load callback.  Returns the updated property bag, the action
trace, and the settled outcome of the returned promise (`some e` =
rejected with `e`, mirroring `throw e`). -/
def makeLoad (p : Props) (reload : Bool) (loadCb : Option Err) :
    Props × List Act × Option Err :=
  if p.loading then (p, [], none)
  else if !p.loaded || reload then
    match loadCb with
    | none =>
        ({ p with loading := false, loaded := true },
         [Act.spinnerShow, Act.setLoading true, Act.emit Ev.loading,
          Act.callUserLoad 1, Act.setLoaded true, Act.emit Ev.loaded,
          Act.setLoading false, Act.spinnerHide],
         none)
    | some e =>
        ({ p with loading := false },
         [Act.spinnerShow, Act.setLoading true, Act.emit Ev.loading,
          Act.callUserLoad 1, Act.setLoading false,
          Act.emit (Ev.loadError (some e)), Act.spinnerHide],
         some e)
  else
    (p, [Act.spinnerShow, Act.spinnerHide], none)

/-- One uninterrupted run of the closure returned by `makeShow(show,
load)` (part_000, lines 138-154), with `loadCb` the outcome of the user
load callback (used inside the awaited `load(el, options)`) and `showCb`
the outcome of the user show callback. -/
def makeShow (p : Props) (reload : Bool) (loadCb showCb : Option Err) :
    Props × List Act × Option Err :=
  if p.showPending then (p, [], none)
  else
    let lr := makeLoad { p with showPending := true } reload loadCb
    let pre := Act.setShowPending true :: Act.emit Ev.showing :: lr.2.1
    match lr.2.2 with
    | some e =>
        (lr.1, pre ++ [Act.emit (Ev.showError (some e))], some e)
    | none =>
        match showCb with
        | some e =>
            (lr.1, pre ++ [Act.callUserShow 1, Act.emit (Ev.showError (some e))],
             some e)
        | none =>
            ({ lr.1 with shown := true, showPending := false },
             pre ++ [Act.callUserShow 1, Act.setShown true,
               Act.setShowPending false, Act.emit Ev.shown],
             none)

/-- Behaviour of the user hide callback as seen by `makeHide`: the call
`hide(el)` may throw synchronously, or return a promise that later
rejects, or resolve. -/
inductive HideCb
  | resolve
  | syncThrow (e : Err)
  | asyncReject (e : Err)
  deriving DecidableEq

/-- One run of the closure returned by `makeHide(hide, unload,
loadingSpinner)` (part_000, lines 258-279), including the deferred
`.then` continuation when it runs.  `unloadCb` is the outcome of `await
unload()`; `hideCb` the behaviour of `hide(el)`.  Note the source awaits
`unload()` inside the try/catch but only wraps `hide(el)` in
`Promise.resolve(...).then(...)` without a rejection handler: an
asynchronous rejection of the hide callback is not caught, so the run
ends with the returned promise resolved (`none`), no "hideError" event
and the flags left as they were. -/
def makeHide (p : Props) (unloadCb : Option Err) (hideCb : HideCb) :
    Props × List Act × Option Err :=
  if !p.shown then (p, [], none)
  else if p.hidePending then (p, [], none)
  else
    let p1 := { p with hidePending := true }
    let pre := [Act.setHidePending true, Act.spinnerShow, Act.callUnload 0]
    match unloadCb with
    | some e =>
        (p1, pre ++ [Act.emit (Ev.hideError (some e)), Act.spinnerHide], some e)
    | none =>
        match hideCb with
        | HideCb.syncThrow e =>
            (p1, pre ++ [Act.callUserHide 1, Act.emit (Ev.hideError (some e)),
               Act.spinnerHide],
             some e)
        | HideCb.asyncReject _ =>
            (p1, pre ++ [Act.callUserHide 1, Act.removeResume, Act.spinnerHide],
             none)
        | HideCb.resolve =>
            ({ p1 with shown := false, hidePending := false },
             pre ++ [Act.callUserHide 1, Act.removeResume, Act.spinnerHide,
               Act.setShown false, Act.setHidePending false, Act.emit Ev.hidden],
             none)

end Ctrl

namespace CtrlJs

/-- The property bag of the src/Ctrl.js variant: its `el` only installs
`{shown: false, showPending: false, hidePending: false}`. -/
structure Props where
  shown : Bool
  showPending : Bool
  hidePending : Bool
  deriving DecidableEq

/-- One uninterrupted run of the closure returned by `makeShow(show)`
(src/Ctrl.js, lines 83-98).  Note the source dispatches "shown" first and
only then sets `shown = true` and `showPending = false`. -/
def makeShow (p : Props) (showCb : Option Ctrl.Err) :
    Props × List Ctrl.Act × Option Ctrl.Err :=
  if p.showPending then (p, [], none)
  else
    match showCb with
    | some e =>
        ({ p with showPending := true },
         [Ctrl.Act.setShowPending true, Ctrl.Act.emit Ctrl.Ev.showing,
          Ctrl.Act.callUserShow 1, Ctrl.Act.emit (Ctrl.Ev.showError none)],
         some e)
    | none =>
        ({ p with shown := true, showPending := false },
         [Ctrl.Act.setShowPending true, Ctrl.Act.emit Ctrl.Ev.showing,
          Ctrl.Act.callUserShow 1, Ctrl.Act.emit Ctrl.Ev.shown,
          Ctrl.Act.setShown true, Ctrl.Act.setShowPending false],
         none)

/-- One run of the closure returned by `makeHide(hide)` (src/Ctrl.js,
lines 202-217), including the `.then` continuation when it runs.  The
source dispatches "hidden" first and only then sets `shown = false` and
`hidePending = false`. -/
def makeHide (p : Props) (hideCb : Ctrl.HideCb) :
    Props × List Ctrl.Act × Option Ctrl.Err :=
  if !p.shown then (p, [], none)
  else if p.hidePending then (p, [], none)
  else
    let p1 := { p with hidePending := true }
    match hideCb with
    | Ctrl.HideCb.syncThrow e =>
        (p1, [Ctrl.Act.setHidePending true, Ctrl.Act.callUserHide 1], some e)
    | Ctrl.HideCb.asyncReject _ =>
        (p1, [Ctrl.Act.setHidePending true, Ctrl.Act.callUserHide 1,
          Ctrl.Act.removeResume],
         none)
    | Ctrl.HideCb.resolve =>
        ({ p1 with shown := false, hidePending := false },
         [Ctrl.Act.setHidePending true, Ctrl.Act.callUserHide 1,
          Ctrl.Act.removeResume, Ctrl.Act.emit Ctrl.Ev.hidden,
          Ctrl.Act.setShown false, Ctrl.Act.setHidePending false],
         none)

end CtrlJs

namespace Ctrl

/-- What a mutation batch observes about a registered element: whether
`document.body.contains(el)` holds and the element's `props.shown` flag.
`id` distinguishes elements. -/
structure ManagedEl where
  id : Nat
  contained : Bool
  shown : Bool
  deriving DecidableEq

/-- A `[new WeakRef(el), show, hide]` registry entry: `ref` is the result
of `elementRef.deref()` at batch time (`none` = garbage collected). -/
structure ObservedEntry where
  ref : Option ManagedEl
  deriving DecidableEq

/-- The body of `processMutations` (part_000, lines 12-33), identical to
the `MutationObserver` callback in src/Ctrl.js (lines 3-25): drop entries
whose weak reference has cleared, then collect the elements whose show
trigger is invoked (`document.body.contains(el) && el.props?.shown ===
false`) and the elements whose hide trigger is invoked
(`!document.body.contains(el) && el.props?.shown`).  Returns (surviving
entries, show-invoked elements, hide-invoked elements), each in registry
order. -/
def processMutations (observedElements : List ObservedEntry) :
    List ObservedEntry × List ManagedEl × List ManagedEl :=
  let survivors := observedElements.filter (fun en => en.ref.isSome)
  let showTargets := survivors.filter (fun en =>
    match en.ref with
    | some e => e.contained && e.shown == false
    | none => false)
  let hideTargets := survivors.filter (fun en =>
    match en.ref with
    | some e => !e.contained && e.shown
    | none => false)
  (survivors,
   showTargets.filterMap (fun en => en.ref),
   hideTargets.filterMap (fun en => en.ref))

/-! ## Delegated event dispatch

`actualEventListener` (part_000 lines 183-236, identical in src/Ctrl.js
lines 128-178) is modelled over the ancestor chain of the event's
original target: `chain` lists the node ids from `event.target` (head)
through successive `parentElement` links.  `matchesSel sel n` says node `n`
matchesSel CSS selector `sel`, so `event.target.closest(sel)` is the first
node of the chain matching `sel`, and `distance(event.target, a)` is the
index of `a` in the chain (the number of `parentElement` hops). -/

/-- `event.target.closest(selector)`: the nearest node on the ancestor
chain (self included) matching the selector, if any. -/
def closest (matchesSel : String → Nat → Bool) (chain : List Nat)
    (sel : String) : Option Nat :=
  chain.find? (fun n => matchesSel sel n)

/-- `distance(element, ancestor)` (part_000 lines 238-242): the number of
`parentElement` steps from the chain's head to the first occurrence of
`ancestor`. -/
def distance (chain : List Nat) (ancestor : Nat) : Nat :=
  chain.indexOf ancestor

/-- Stable insertion of `x` into a list sorted ascending by `key`:
`x` goes in front of the first element with a strictly larger or equal
key coming later, i.e. after all earlier elements whose key is strictly
smaller, before later elements with an equal key only if they come after
`x` in the input (see `sortByKey`). -/
def insertByKey (key : α → Nat) (x : α) : List α → List α
  | [] => [x]
  | y :: ys => if key x ≤ key y then x :: y :: ys else y :: insertByKey key x ys

/-- Stable sort ascending by `key`, modelling `Array.prototype.toSorted`
with the comparator `(a, b) => key(a) - key(b)` (toSorted is required to
be stable). -/
def sortByKey (key : α → Nat) : List α → List α
  | [] => []
  | x :: xs => insertByKey key x (sortByKey key xs)

/-- Steps 1-3 of the dispatch: map each non-empty selector to the closest
ancestor of the event target matching it, and drop the selectors with no
matching ancestor (`.map(selector => [selector,
event.target.closest(selector)]).filter(([_, element]) => element !==
null)`, fused into one `filterMap`). -/
def selectorPairs (matchesSel : String → Nat → Bool) (chain : List Nat)
    (selectors : List String) : List (String × Nat) :=
  selectors.filterMap (fun s => (closest matchesSel chain s).map (fun n => (s, n)))

/-- The full ordered list of `(selector, delegatorTarget)` pairs the
dispatch loop walks: non-empty selectors with a match, sorted ascending
by the matched ancestor's distance from the event target, then the
empty selector paired with the element itself appended last when it is
registered. -/
def delegationOrder (matchesSel : String → Nat → Bool) (chain : List Nat)
    (el : Nat) (selectors : List String) : List (String × Nat) :=
  let processViewElEvent := selectors.contains ""
  let sorted := sortByKey (fun pr => distance chain pr.2)
    (selectorPairs matchesSel chain (selectors.filter (fun s => !(s == ""))))
  if processViewElEvent then sorted ++ [("", el)] else sorted

/-- The `for ... of selectorsAndDelegatorTargets` loop: before each
iteration the `stopProcessing` flag is checked; then `event.delegatorTarget`
is set to the pair's matched ancestor and the handler is awaited.
`hstop s` says whether the handler registered for selector `s` calls the
(overridden) `stopPropagation`/`stopImmediatePropagation` during its run;
the override invokes the original native method and sets the local flag
in the same step, so the returned Bool is at once the final
`stopProcessing` flag and whether the native method was invoked.
Returns the invocations performed, as `(selector, delegatorTarget)`
pairs in execution order, and that Bool. -/
def runHandlers (hstop : String → Bool) :
    List (String × Nat) → Bool → List (String × Nat) × Bool
  | [], stopProcessing => ([], stopProcessing)
  | pr :: rest, stopProcessing =>
      if stopProcessing then ([], stopProcessing)
      else
        let r := runHandlers hstop rest (stopProcessing || hstop pr.1)
        (pr :: r.1, r.2)

/-- One run of the listener returned by `actualEventListener(el,
eventListeners)` for an incoming event whose target has ancestor chain
`chain`.  `selectors` is `Object.keys(eventListeners)` (distinct, in
insertion order). -/
def actualEventListener (matchesSel : String → Nat → Bool) (chain : List Nat)
    (el : Nat) (selectors : List String) (hstop : String → Bool) :
    List (String × Nat) × Bool :=
  runHandlers hstop (delegationOrder matchesSel chain el selectors) false

end Ctrl

namespace Ctrl

/-! ## Interleaved execution of the lifecycle triggers (part_000)

The triggers are `async` functions running on a single-threaded
cooperative scheduler: each segment between two awaits is atomic, and at
every await other segments may run.  The machine below cuts
`makeShow`/`makeLoad`/`makeHide` at exactly their suspension points and
lets an explicit schedule (a list of commands) choose the interleaving
and the outcomes of the opaque user callbacks.  This is the semantics
the mutual-exclusion claim about `showPending`/`hidePending` quantifies
over. -/

/-- Where a suspended run of the closure from `makeShow` stands.
`awaitUserLoad`: suspended at the `await load(el)` inside `makeLoad`
while the user load callback runs.  `loadDone` / `loadFailed e`: the
promise of `load(el, options)` has settled and the `await` in `makeShow`
is about to resume.  `awaitUserShow`: suspended at `await show(el)`. -/
inductive SPC
  | awaitUserLoad
  | loadDone
  | loadFailed (e : Err)
  | awaitUserShow
  deriving DecidableEq

/-- Where a suspended run of the closure from `makeHide` stands:
suspended at `await unload()`, or (after `Promise.resolve(hide(el))
.then(...)` was registered) waiting for the user hide callback to
settle. -/
inductive HPC
  | awaitUnload
  | awaitUserHide
  deriving DecidableEq

/-- A bare run of the closure from `makeLoad` (entered through the
public `load` entry point) suspended at its `await load(el)`. -/
inductive LPC
  | awaitUserLoad
  deriving DecidableEq

/-- The element's state plus the suspended trigger runs and the events
dispatched so far. -/
structure Sys where
  props : Props
  showT : Option SPC
  hideT : Option HPC
  loadT : Option LPC
  events : List Ev
  deriving DecidableEq

/-- The freshly created element: all flags false, nothing in flight. -/
def Sys.init : Sys :=
  { props := initProps, showT := none, hideT := none, loadT := none
    events := [] }

/-- A scheduler command: invoke a trigger (running its synchronous
prefix), settle a user callback (`none`/`true` = resolve, `some e`/
`false` = reject), or run a pending resumption. -/
inductive Cmd
  | startShow (reload : Bool)
  | resolveShowLoad (r : Option Err)
  | resumeShow
  | resolveUserShow (r : Option Err)
  | startHide
  | resolveUnload (r : Option Err)
  | resolveUserHide (ok : Bool)
  | startLoad (reload : Bool)
  | resolveBareLoad (r : Option Err)
  deriving DecidableEq

/-- The synchronous prefix of one invocation of the closure from
`makeShow` (up to the suspension at `await load(el, options)`): the
`showPending` re-entrancy guard, then `showPending = true`, the
"showing" dispatch, and the synchronous prefix of `load(el, options)`.
If the load body runs its user callback the run suspends at
`SPC.awaitUserLoad`; if `makeLoad` returns without awaiting (already
loading, or already loaded and no reload) the `await` in `makeShow`
still yields, leaving the run at `SPC.loadDone`. -/
def stepStartShow (reload : Bool) (s : Sys) : Sys :=
  if s.props.showPending then s
  else
    match s.showT with
    | some _ => s
    | none =>
        let p := { s.props with showPending := true }
        let ev := s.events ++ [Ev.showing]
        if p.loading then
          { s with props := p, events := ev, showT := some SPC.loadDone }
        else if !p.loaded || reload then
          { s with
            props := { p with loading := true }
            events := ev ++ [Ev.loading]
            showT := some SPC.awaitUserLoad }
        else
          { s with props := p, events := ev, showT := some SPC.loadDone }

/-- The user load callback started from within a show settles: on
success `loaded = true`, "loaded" is dispatched and `loading` cleared
(the `finally`); on rejection `loading` is cleared and "loadError" is
dispatched with the error, and the promise of `load(el, options)`
rejects. -/
def stepResolveShowLoad (r : Option Err) (s : Sys) : Sys :=
  match s.showT with
  | some SPC.awaitUserLoad =>
      match r with
      | none =>
          { s with
            props := { s.props with loaded := true, loading := false }
            events := s.events ++ [Ev.loaded]
            showT := some SPC.loadDone }
      | some e =>
          { s with
            props := { s.props with loading := false }
            events := s.events ++ [Ev.loadError (some e)]
            showT := some (SPC.loadFailed e) }
  | _ => s

/-- The `await load(el, options)` in `makeShow` resumes: on success the
user show callback is invoked (suspending at `await show(el)`); on
failure the catch block dispatches "showError" and rethrows, leaving
`showPending` set. -/
def stepResumeShow (s : Sys) : Sys :=
  match s.showT with
  | some SPC.loadDone => { s with showT := some SPC.awaitUserShow }
  | some (SPC.loadFailed e) =>
      { s with events := s.events ++ [Ev.showError (some e)], showT := none }
  | _ => s

/-- The user show callback settles: on success `shown = true` and
`showPending = false` are set and "shown" dispatched, all in one
continuation; on rejection "showError" is dispatched and the error
rethrown, leaving `showPending` set. -/
def stepResolveUserShow (r : Option Err) (s : Sys) : Sys :=
  match s.showT with
  | some SPC.awaitUserShow =>
      match r with
      | none =>
          { s with
            props := { s.props with shown := true, showPending := false }
            events := s.events ++ [Ev.shown]
            showT := none }
      | some e =>
          { s with events := s.events ++ [Ev.showError (some e)], showT := none }
  | _ => s

/-- The synchronous prefix of one invocation of the closure from
`makeHide`: the `shown` and `hidePending` guards, then `hidePending =
true` and the suspension at `await unload()`. -/
def stepStartHide (s : Sys) : Sys :=
  if !s.props.shown then s
  else if s.props.hidePending then s
  else
    match s.hideT with
    | some _ => s
    | none =>
        { s with
          props := { s.props with hidePending := true }
          hideT := some HPC.awaitUnload }

/-- `await unload()` settles: on success the user hide callback is
invoked and `.then` registered (the run now waits for it to settle); on
rejection the catch block dispatches "hideError" and rethrows, leaving
`hidePending` set and `shown` untouched. -/
def stepResolveUnload (r : Option Err) (s : Sys) : Sys :=
  match s.hideT with
  | some HPC.awaitUnload =>
      match r with
      | none => { s with hideT := some HPC.awaitUserHide }
      | some e =>
          { s with events := s.events ++ [Ev.hideError (some e)], hideT := none }
  | _ => s

/-- The user hide callback settles.  On success the `.then` continuation
runs: `shown = false` and `hidePending = false` are set and "hidden"
dispatched, all in one continuation.  On rejection the `.then` has no
rejection handler, so nothing runs: the flags keep their values and no
event is dispatched. -/
def stepResolveUserHide (ok : Bool) (s : Sys) : Sys :=
  match s.hideT with
  | some HPC.awaitUserHide =>
      if ok then
        { s with
          props := { s.props with shown := false, hidePending := false }
          events := s.events ++ [Ev.hidden]
          hideT := none }
      else
        { s with hideT := none }
  | _ => s

/-- The synchronous prefix of one invocation of the closure from
`makeLoad` entered through the public `load` entry point: the `loading`
guard, then — when a load is due — `loading = true`, the "loading"
dispatch and the user load callback's launch; when the element is
already loaded and no reload is requested the body completes
synchronously without any lifecycle action. -/
def stepStartLoad (reload : Bool) (s : Sys) : Sys :=
  if s.props.loading then s
  else
    match s.loadT with
    | some _ => s
    | none =>
        if !s.props.loaded || reload then
          { s with
            props := { s.props with loading := true }
            events := s.events ++ [Ev.loading]
            loadT := some LPC.awaitUserLoad }
        else s

/-- The user load callback of a bare load settles, mirroring
`stepResolveShowLoad` without a waiting show. -/
def stepResolveBareLoad (r : Option Err) (s : Sys) : Sys :=
  match s.loadT with
  | some LPC.awaitUserLoad =>
      match r with
      | none =>
          { s with
            props := { s.props with loaded := true, loading := false }
            events := s.events ++ [Ev.loaded]
            loadT := none }
      | some e =>
          { s with
            props := { s.props with loading := false }
            events := s.events ++ [Ev.loadError (some e)]
            loadT := none }
  | _ => s

/-- One scheduler step. -/
def step (c : Cmd) (s : Sys) : Sys :=
  match c with
  | Cmd.startShow reload => stepStartShow reload s
  | Cmd.resolveShowLoad r => stepResolveShowLoad r s
  | Cmd.resumeShow => stepResumeShow s
  | Cmd.resolveUserShow r => stepResolveUserShow r s
  | Cmd.startHide => stepStartHide s
  | Cmd.resolveUnload r => stepResolveUnload r s
  | Cmd.resolveUserHide ok => stepResolveUserHide ok s
  | Cmd.startLoad reload => stepStartLoad reload s
  | Cmd.resolveBareLoad r => stepResolveBareLoad r s

/-- Run a schedule from a state. -/
def run (s : Sys) : List Cmd → Sys
  | [] => s
  | c :: cs => run (step c s) cs

/-- Whether firing command `c` at state `s` respects the observer's
discipline: a `startShow` only fires while the `shown` flag is false
(the observer's show filter requires `el.props?.shown === false`); every
other command is unrestricted. -/
def cmdGuard (s : Sys) : Cmd → Bool
  | Cmd.startShow _ => !s.props.shown
  | _ => true

/-- A schedule is show-guarded from `s` when every `startShow` command in
it fires at a state whose `shown` flag is false — exactly the discipline
of the mutation observer. -/
def showGuarded (s : Sys) : List Cmd → Bool
  | [] => true
  | c :: cs => cmdGuard s c && showGuarded (step c s) cs

/-- The public `load(el, {reload})` entry point (part_000, lines
281-283): it calls `el.load(el, {reload})` directly, so the synchronous
prefix of the load trigger runs in the calling turn; nothing is
deferred. -/
def loadEntry (reload : Bool) (s : Sys) : Sys × List Cmd :=
  (step (Cmd.startLoad reload) s, [])

/-- The public `show(el, {reload})` entry point (part_000, lines
285-291): it only schedules `() => el.show(el, {reload})` through
`setTimeout(..., 0)`, so the calling turn performs no lifecycle action
and the trigger itself runs as a deferred command one scheduling turn
later. -/
def showEntry (reload : Bool) (s : Sys) : Sys × List Cmd :=
  (s, [Cmd.startShow reload])

end Ctrl

namespace Ctrl

/-! ## Helper lemmas -/

theorem mem_insertByKey {α : Type} (key : α → Nat) (x a : α) (l : List α) :
    a ∈ insertByKey key x l ↔ a = x ∨ a ∈ l := by
  induction l with
  | nil => simp [insertByKey]
  | cons y ys ih =>
      simp only [insertByKey]
      split
      · simp
      · simp [ih]
        tauto

theorem mem_sortByKey {α : Type} (key : α → Nat) (a : α) (l : List α) :
    a ∈ sortByKey key l ↔ a ∈ l := by
  induction l with
  | nil => simp [sortByKey]
  | cons y ys ih => simp [sortByKey, mem_insertByKey, ih]

theorem sorted_insertByKey {α : Type} (key : α → Nat) (x : α) (l : List α)
    (h : List.Pairwise (fun a b => key a ≤ key b) l) :
    List.Pairwise (fun a b => key a ≤ key b) (insertByKey key x l) := by
  induction l with
  | nil => simp [insertByKey]
  | cons y ys ih =>
      rcases List.pairwise_cons.1 h with ⟨hy, hys⟩
      simp only [insertByKey]
      split
      · rename_i hxy
        refine List.pairwise_cons.2 ⟨?_, h⟩
        intro b hb
        rcases List.mem_cons.1 hb with rfl | hb
        · exact hxy
        · exact le_trans hxy (hy b hb)
      · rename_i hxy
        refine List.pairwise_cons.2 ⟨?_, ih hys⟩
        intro b hb
        rcases (mem_insertByKey key x b ys).1 hb with rfl | hb
        · exact le_of_not_le hxy
        · exact hy b hb

theorem sorted_sortByKey {α : Type} (key : α → Nat) (l : List α) :
    List.Pairwise (fun a b => key a ≤ key b) (sortByKey key l) := by
  induction l with
  | nil => simp [sortByKey]
  | cons y ys ih => exact sorted_insertByKey key y (sortByKey key ys) ih

theorem mem_selectorPairs (matchesSel : String → Nat → Bool) (chain : List Nat)
    (selectors : List String) (s : String) (n : Nat) :
    (s, n) ∈ selectorPairs matchesSel chain selectors ↔
      s ∈ selectors ∧ closest matchesSel chain s = some n := by
  simp only [selectorPairs, List.mem_filterMap, Option.map_eq_some']
  constructor
  · rintro ⟨t, ht, m, hm, heq⟩
    cases heq
    exact ⟨ht, hm⟩
  · rintro ⟨hs, hc⟩
    exact ⟨s, hs, n, hc, rfl⟩

theorem runHandlers_of_stopped (hstop : String → Bool) (l : List (String × Nat)) :
    runHandlers hstop l true = ([], true) := by
  cases l <;> simp [runHandlers]

theorem runHandlers_no_stop (hstop : String → Bool)
    (hnostop : ∀ s, hstop s = false) (l : List (String × Nat)) :
    runHandlers hstop l false = (l, false) := by
  induction l with
  | nil => simp [runHandlers]
  | cons pr rest ih => simp [runHandlers, hnostop, ih]

theorem runHandlers_break (hstop : String → Bool) (front : List (String × Nat))
    (pr : String × Nat) (post : List (String × Nat))
    (hfront : ∀ q ∈ front, hstop q.1 = false) (hpr : hstop pr.1 = true) :
    runHandlers hstop (front ++ pr :: post) false = (front ++ [pr], true) := by
  induction front with
  | nil => simp [runHandlers, hpr, runHandlers_of_stopped]
  | cons q rest ih =>
      have hq : hstop q.1 = false := hfront q (List.mem_cons_self q rest)
      have hrest : ∀ r ∈ rest, hstop r.1 = false :=
        fun r hr => hfront r (List.mem_cons_of_mem q hr)
      simp [runHandlers, hq, ih hrest]

end Ctrl

namespace Ctrl

/-- The inductive invariant behind the pending-flag mutual exclusion:
a pending show implies the element is not yet shown (show is only started
while `shown` is false and only its success continuation sets `shown`),
and a pending hide implies the element is still shown (hide only starts
on a shown element and only its success continuation clears `shown`). -/
def MutexInv (s : Sys) : Prop :=
  (s.props.showPending = true → s.props.shown = false) ∧
  (s.props.hidePending = true → s.props.shown = true)

theorem mutexInv_step (c : Cmd) (s : Sys) (hInv : MutexInv s)
    (hg : ∀ r, c = Cmd.startShow r → s.props.shown = false) :
    MutexInv (step c s) := by
  obtain ⟨h1, h2⟩ := hInv
  cases c with
  | startShow r =>
      have hsh : s.props.shown = false := hg r rfl
      simp only [step, stepStartShow]
      split
      · exact ⟨h1, h2⟩
      · split
        · exact ⟨h1, h2⟩
        · split
          · exact ⟨fun _ => hsh, fun hh => absurd (h2 hh) (by simp [hsh])⟩
          · split
            · exact ⟨fun _ => hsh, fun hh => absurd (h2 hh) (by simp [hsh])⟩
            · exact ⟨fun _ => hsh, fun hh => absurd (h2 hh) (by simp [hsh])⟩
  | resolveShowLoad r =>
      simp only [step, stepResolveShowLoad]
      split
      · split <;> exact ⟨h1, h2⟩
      · exact ⟨h1, h2⟩
  | resumeShow =>
      simp only [step, stepResumeShow]
      split <;> exact ⟨h1, h2⟩
  | resolveUserShow r =>
      simp only [step, stepResolveUserShow]
      split
      · split
        · exact ⟨by simp, fun _ => rfl⟩
        · exact ⟨h1, h2⟩
      · exact ⟨h1, h2⟩
  | startHide =>
      simp only [step, stepStartHide]
      split
      · exact ⟨h1, h2⟩
      · rename_i hshown
        have hsh : s.props.shown = true := by simpa using hshown
        split
        · exact ⟨h1, h2⟩
        · split
          · exact ⟨h1, h2⟩
          · exact ⟨fun hh => absurd (h1 hh) (by simp [hsh]), fun _ => hsh⟩
  | resolveUnload r =>
      simp only [step, stepResolveUnload]
      split
      · split <;> exact ⟨h1, h2⟩
      · exact ⟨h1, h2⟩
  | resolveUserHide ok =>
      simp only [step, stepResolveUserHide]
      split
      · split
        · exact ⟨fun _ => rfl, by simp⟩
        · exact ⟨h1, h2⟩
      · exact ⟨h1, h2⟩
  | startLoad r =>
      simp only [step, stepStartLoad]
      split
      · exact ⟨h1, h2⟩
      · split
        · exact ⟨h1, h2⟩
        · split
          · exact ⟨h1, h2⟩
          · exact ⟨h1, h2⟩
  | resolveBareLoad r =>
      simp only [step, stepResolveBareLoad]
      split
      · split <;> exact ⟨h1, h2⟩
      · exact ⟨h1, h2⟩

theorem mutexInv_run (cmds : List Cmd) : ∀ s : Sys, MutexInv s →
    showGuarded s cmds = true → MutexInv (run s cmds) := by
  induction cmds with
  | nil => intro s h _; exact h
  | cons c cs ih =>
      intro s h hg
      rw [showGuarded, Bool.and_eq_true] at hg
      refine ih (step c s) (mutexInv_step c s h ?_) hg.2
      intro r hc
      subst hc
      simpa [cmdGuard] using hg.1

end Ctrl

namespace Ctrl

/-- C1 (amended): `showPending` and `hidePending` are mutually exclusive
at every point of every execution whose schedule invokes the show
trigger only while the element's `shown` flag is false — the discipline
every observer-driven show invocation follows, since `processMutations`
only calls show when `el.props?.shown === false`.  The unrestricted
claim fails (see the counterexample): the show trigger's re-entrancy
guard checks only `showPending`, so a show triggered on an already-shown
element suspends with `showPending = true` while `shown = true`, and a
hide triggered there sets `hidePending` as well. -/
theorem c1_pending_flags_mutually_exclusive (cmds : List Cmd)
    (hg : showGuarded Sys.init cmds = true) :
    ¬((run Sys.init cmds).props.showPending = true ∧
      (run Sys.init cmds).props.hidePending = true) := by
  have h := mutexInv_run cmds Sys.init
    ⟨fun _ => rfl, fun hhp => by simp [Sys.init, initProps] at hhp⟩ hg
  rintro ⟨hsp, hhp⟩
  have h1 := h.1 hsp
  have h2 := h.2 hhp
  rw [h1] at h2
  exact Bool.false_ne_true h2

/-- C1 witness: a full observer-driven round trip (show on attach, hide
on detach, show again on re-attach) is a guarded schedule, and the
pending flags are never both set at its end. -/
theorem c1_pending_flags_mutually_exclusive_witness :
    showGuarded Sys.init
      [Cmd.startShow false, Cmd.resolveShowLoad none, Cmd.resumeShow,
       Cmd.resolveUserShow none, Cmd.startHide, Cmd.resolveUnload none,
       Cmd.resolveUserHide true, Cmd.startShow false] = true ∧
    ¬((run Sys.init
      [Cmd.startShow false, Cmd.resolveShowLoad none, Cmd.resumeShow,
       Cmd.resolveUserShow none, Cmd.startHide, Cmd.resolveUnload none,
       Cmd.resolveUserHide true, Cmd.startShow false]).props.showPending = true ∧
      (run Sys.init
      [Cmd.startShow false, Cmd.resolveShowLoad none, Cmd.resumeShow,
       Cmd.resolveUserShow none, Cmd.startHide, Cmd.resolveUnload none,
       Cmd.resolveUserHide true, Cmd.startShow false]).props.hidePending = true) :=
  ⟨by decide, c1_pending_flags_mutually_exclusive _ (by decide)⟩

/-- C1 counterexample: show the element (observer-driven), then invoke
the show trigger again on the now-shown element (the guard checks only
`showPending`, so it proceeds and suspends at its `await`), then invoke
the hide trigger at that suspension (its guards pass: `shown` is true,
`hidePending` false).  Both pending flags are now true simultaneously,
refuting the claimed invariant exactly in the scenario it singles out. -/
theorem c1_counterexample_both_pending_flags :
    (run Sys.init [Cmd.startShow false, Cmd.resolveShowLoad none,
      Cmd.resumeShow, Cmd.resolveUserShow none, Cmd.startShow false,
      Cmd.startHide]).props.showPending = true ∧
    (run Sys.init [Cmd.startShow false, Cmd.resolveShowLoad none,
      Cmd.resumeShow, Cmd.resolveUserShow none, Cmd.startShow false,
      Cmd.startHide]).props.hidePending = true := by decide

/-- C2: a processed mutation batch keeps exactly the entries whose weak
reference still dereferences (cleared entries are dropped by the first
filter and reach no other code, so they cause no error), invokes the
show trigger for exactly the surviving elements that are contained in
the document with `shown = false`, and invokes the hide trigger for
exactly the surviving elements that are not contained in the document
with `shown = true`. -/
theorem c2_processMutations_exact (observedElements : List ObservedEntry) :
    (∀ en, en ∈ (processMutations observedElements).1 ↔
      en ∈ observedElements ∧ en.ref ≠ none) ∧
    (∀ e, e ∈ (processMutations observedElements).2.1 ↔
      ObservedEntry.mk (some e) ∈ observedElements ∧
        e.contained = true ∧ e.shown = false) ∧
    (∀ e, e ∈ (processMutations observedElements).2.2 ↔
      ObservedEntry.mk (some e) ∈ observedElements ∧
        e.contained = false ∧ e.shown = true) := by
  refine ⟨fun en => ?_, fun e => ?_, fun e => ?_⟩
  · simp [processMutations, List.mem_filter, Option.isSome_iff_ne_none]
  · simp only [processMutations, List.mem_filterMap, List.mem_filter]
    constructor
    · rintro ⟨en, ⟨⟨hmem, _⟩, hpred⟩, href⟩
      obtain ⟨ref⟩ := en
      simp only at href
      subst href
      simp at hpred
      exact ⟨hmem, hpred.1, hpred.2⟩
    · rintro ⟨hmem, hc, hs⟩
      exact ⟨⟨some e⟩, ⟨⟨hmem, rfl⟩, by simp [hc, hs]⟩, rfl⟩
  · simp only [processMutations, List.mem_filterMap, List.mem_filter]
    constructor
    · rintro ⟨en, ⟨⟨hmem, _⟩, hpred⟩, href⟩
      obtain ⟨ref⟩ := en
      simp only at href
      subst href
      simp at hpred
      exact ⟨hmem, hpred.1, hpred.2⟩
    · rintro ⟨hmem, hc, hs⟩
      exact ⟨⟨some e⟩, ⟨⟨hmem, rfl⟩, by simp [hc, hs]⟩, rfl⟩

/-- C9 (amended): the external show trigger (`show(el, {reload})`, which
wraps `el.show` in `setTimeout(..., 0)`) performs no lifecycle action in
the calling turn — running its deferred command later is what performs
the trigger; the external load trigger (`load(el, {reload})`), by
contrast, calls `el.load(el, {reload})` directly, so whenever a load is
due the "loading" notification is dispatched (and the user load callback
launched) synchronously in the calling turn — it is not deferred (see
the counterexample). -/
theorem c9_show_entry_deferred_load_entry_synchronous (reload : Bool) (s : Sys) :
    (showEntry reload s).1 = s ∧
    run (showEntry reload s).1 (showEntry reload s).2 =
      step (Cmd.startShow reload) s ∧
    (loadEntry reload s).2 = [] ∧
    (s.props.loading = false → s.loadT = none →
      (s.props.loaded = false ∨ reload = true) →
      (loadEntry reload s).1.events = s.events ++ [Ev.loading] ∧
      (loadEntry reload s).1.loadT = some LPC.awaitUserLoad) := by
  refine ⟨rfl, rfl, rfl, fun hl hlt hdue => ?_⟩
  rcases hdue with h | h
  · simp [loadEntry, step, stepStartLoad, hl, hlt, h]
  · simp [loadEntry, step, stepStartLoad, hl, hlt, h]

/-- C9 counterexample: on a freshly created element, the external load
trigger dispatches "loading" and launches the user load callback in the
very turn of the call (nothing is deferred), refuting "never invokes the
lifecycle synchronously; deferred by one scheduling turn" for the load
entry point. -/
theorem c9_counterexample_load_entry_synchronous :
    (loadEntry false Sys.init).1.events = [Ev.loading] ∧
    (loadEntry false Sys.init).1.props.loading = true ∧
    (loadEntry false Sys.init).1.loadT = some LPC.awaitUserLoad ∧
    (loadEntry false Sys.init).2 = [] := by decide

end Ctrl

namespace Ctrl

/-- C3 (amended): in the part_000 variant the show trigger returns at
once (empty trace, no user show callback) when `showPending` is already
true, and on the success path sets `shown = true` and `showPending =
false` strictly before dispatching "shown" — the trace ends with exactly
those two writes followed by the "shown" dispatch.  In the src/Ctrl.js
variant the claim's ordering fails: "shown" is dispatched before the two
state updates (see the counterexample). -/
theorem c3_show_guard_and_state_before_shown (p : Props) (reload : Bool)
    (loadCb showCb : Option Err) :
    (p.showPending = true →
      makeShow p reload loadCb showCb = (p, [], none)) ∧
    (p.showPending = false →
      (makeLoad { p with showPending := true } reload loadCb).2.2 = none →
      showCb = none →
      (∃ tr, (makeShow p reload loadCb showCb).2.1 =
        tr ++ [Act.setShown true, Act.setShowPending false, Act.emit Ev.shown]) ∧
      (makeShow p reload loadCb showCb).1.shown = true ∧
      (makeShow p reload loadCb showCb).1.showPending = false) := by
  constructor
  · intro h
    simp [makeShow, h]
  · intro h hload hshow
    rw [makeShow]
    simp only [h, if_false, hload, hshow, Bool.false_eq_true]
    refine ⟨⟨Act.setShowPending true :: Act.emit Ev.showing ::
      ((makeLoad { p with showPending := true } reload loadCb).2.1 ++
        [Act.callUserShow 1]), ?_⟩, trivial, trivial⟩
    simp

/-- C3 counterexample: in the src/Ctrl.js variant of `makeShow`, a
successful show on a fresh element dispatches "shown" (trace index 3)
strictly before `shown = true` (index 4) and `showPending = false`
(index 5), so a "shown" listener observes the stale state — the state
updates do not precede the "shown" event. -/
theorem c3_counterexample_ctrljs_shown_event_first :
    CtrlJs.makeShow ⟨false, false, false⟩ none =
      (⟨true, false, false⟩,
       [Act.setShowPending true, Act.emit Ev.showing, Act.callUserShow 1,
        Act.emit Ev.shown, Act.setShown true, Act.setShowPending false],
       none) ∧
    List.indexOf (Act.emit Ev.shown)
        (CtrlJs.makeShow ⟨false, false, false⟩ none).2.1 <
      List.indexOf (Act.setShown true)
        (CtrlJs.makeShow ⟨false, false, false⟩ none).2.1 := by decide

/-- C4: when the user load callback rejects with `e` during a show on a
not-yet-shown element, the "loadError" notification carrying `e` fires,
the user show callback is never invoked, `shown` stays false, the
"showError" notification carrying the same `e` fires, and the show
trigger's returned promise rejects with that same `e`. -/
theorem c4_load_failure_aborts_show (p : Props) (reload : Bool) (e : Err)
    (showCb : Option Err)
    (hsp : p.showPending = false) (hld : p.loading = false)
    (hdue : p.loaded = false ∨ reload = true) (hsh : p.shown = false) :
    Act.emit (Ev.loadError (some e)) ∈ (makeShow p reload (some e) showCb).2.1 ∧
    (∀ n, Act.callUserShow n ∉ (makeShow p reload (some e) showCb).2.1) ∧
    (makeShow p reload (some e) showCb).1.shown = false ∧
    Act.emit (Ev.showError (some e)) ∈ (makeShow p reload (some e) showCb).2.1 ∧
    (makeShow p reload (some e) showCb).2.2 = some e := by
  have hdue' : (!p.loaded || reload) = true := by
    rcases hdue with h | h <;> simp [h]
  rw [makeShow, makeLoad]
  simp [hsp, hld, hdue', hsh]

/-- C4 witness: concrete run with a rejecting load callback on a fresh
element. -/
theorem c4_load_failure_aborts_show_witness :
    Act.emit (Ev.loadError (some 7)) ∈ (makeShow initProps false (some 7) none).2.1 ∧
    (∀ n, Act.callUserShow n ∉ (makeShow initProps false (some 7) none).2.1) ∧
    (makeShow initProps false (some 7) none).1.shown = false ∧
    Act.emit (Ev.showError (some 7)) ∈ (makeShow initProps false (some 7) none).2.1 ∧
    (makeShow initProps false (some 7) none).2.2 = some 7 :=
  c4_load_failure_aborts_show initProps false 7 none rfl rfl (Or.inl rfl) rfl

/-- C5 (amended): in the part_000 variant the hide trigger is a no-op
when the element is not shown or a hide is already pending; when it
proceeds and the unload and user hide callbacks resolve, the trace is
exactly the list below — the user hide callback invocation (index 3)
precedes `shown = false` (index 6), and `shown = false` and
`hidePending = false` (indices 6, 7) both precede the "hidden" dispatch
(index 8); in every other outcome `shown` is never flipped.  In the
src/Ctrl.js variant the claim's ordering fails: "hidden" is dispatched
before the two state updates (see the counterexample). -/
theorem c5_hide_guards_and_order (p : Props) (unloadCb : Option Err)
    (hideCb : HideCb) :
    (p.shown = false → makeHide p unloadCb hideCb = (p, [], none)) ∧
    (p.hidePending = true → makeHide p unloadCb hideCb = (p, [], none)) ∧
    (p.shown = true → p.hidePending = false →
      (¬(unloadCb = none ∧ hideCb = HideCb.resolve) →
        Act.setShown false ∉ (makeHide p unloadCb hideCb).2.1) ∧
      (unloadCb = none → hideCb = HideCb.resolve →
        (makeHide p unloadCb hideCb).2.1 =
          [Act.setHidePending true, Act.spinnerShow, Act.callUnload 0,
           Act.callUserHide 1, Act.removeResume, Act.spinnerHide,
           Act.setShown false, Act.setHidePending false, Act.emit Ev.hidden] ∧
        (makeHide p unloadCb hideCb).1.shown = false ∧
        (makeHide p unloadCb hideCb).1.hidePending = false)) := by
  refine ⟨fun h => by simp [makeHide, h], fun h => ?_, fun hs hhp => ?_⟩
  · rw [makeHide]
    split
    · rfl
    · simp [h]
  · constructor
    · intro hno
      rw [makeHide]
      simp only [hs, hhp, Bool.not_true, Bool.false_eq_true, if_false]
      cases unloadCb with
      | some e => simp
      | none =>
          cases hideCb with
          | resolve => exact absurd ⟨rfl, rfl⟩ hno
          | syncThrow e => simp
          | asyncReject e => simp
    · intro hu hh
      subst hu
      subst hh
      rw [makeHide]
      simp [hs, hhp]

/-- C5 counterexample: in the src/Ctrl.js variant of `makeHide`, a
completed hide dispatches "hidden" (trace index 3) strictly before
`shown = false` (index 4) and `hidePending = false` (index 5) — the two
state updates do not precede the "hidden" notification. -/
theorem c5_counterexample_ctrljs_hidden_event_first :
    CtrlJs.makeHide ⟨true, false, false⟩ HideCb.resolve =
      (⟨false, false, false⟩,
       [Act.setHidePending true, Act.callUserHide 1, Act.removeResume,
        Act.emit Ev.hidden, Act.setShown false, Act.setHidePending false],
       none) ∧
    List.indexOf (Act.emit Ev.hidden)
        (CtrlJs.makeHide ⟨true, false, false⟩ HideCb.resolve).2.1 <
      List.indexOf (Act.setShown false)
        (CtrlJs.makeHide ⟨true, false, false⟩ HideCb.resolve).2.1 := by decide

/-- C6 (amended): in the part_000 variant, when the unload callback
fails, and when the user hide callback throws synchronously, the
"hideError" notification carrying the error is dispatched and the hide
trigger's returned promise rejects with that error; but when the user
hide callback rejects asynchronously the failure is swallowed — no
"hideError" fires and the caller's promise resolves.  In the src/Ctrl.js
variant (also cited by the claim) no "hideError" is ever dispatched: a
synchronously throwing hide callback is re-signaled to the caller
without any notification, and an asynchronous rejection is swallowed
entirely — no notification, no re-signal, `hidePending` left stuck
(see the counterexample for concrete runs of each failing case). -/
theorem c6_hide_error_signalling (p : Props) (hs : p.shown = true)
    (hhp : p.hidePending = false) (q : CtrlJs.Props) (hqs : q.shown = true)
    (hqp : q.hidePending = false) :
    (∀ (e : Err) (hideCb : HideCb),
      Act.emit (Ev.hideError (some e)) ∈ (makeHide p (some e) hideCb).2.1 ∧
      (makeHide p (some e) hideCb).2.2 = some e) ∧
    (∀ e : Err,
      Act.emit (Ev.hideError (some e)) ∈
        (makeHide p none (HideCb.syncThrow e)).2.1 ∧
      (makeHide p none (HideCb.syncThrow e)).2.2 = some e) ∧
    (∀ e : Err,
      (CtrlJs.makeHide q (HideCb.syncThrow e)).2.2 = some e ∧
      (∀ d, Act.emit (Ev.hideError d) ∉
        (CtrlJs.makeHide q (HideCb.syncThrow e)).2.1)) ∧
    (∀ e : Err,
      (CtrlJs.makeHide q (HideCb.asyncReject e)).2.2 = none ∧
      (∀ d, Act.emit (Ev.hideError d) ∉
        (CtrlJs.makeHide q (HideCb.asyncReject e)).2.1) ∧
      (CtrlJs.makeHide q (HideCb.asyncReject e)).1.hidePending = true) := by
  refine ⟨fun e hideCb => ?_, fun e => ?_, fun e => ?_, fun e => ?_⟩
  · rw [makeHide]
    simp [hs, hhp]
  · rw [makeHide]
    simp [hs, hhp]
  · rw [CtrlJs.makeHide]
    simp [hqs, hqp]
  · rw [CtrlJs.makeHide]
    simp [hqs, hqp]

/-- C6 witness: on shown elements, a rejecting unload and a
synchronously throwing hide callback in the part_000 variant, and a
synchronously throwing and an asynchronously rejecting hide callback in
the src/Ctrl.js variant. -/
theorem c6_hide_error_signalling_witness :
    (Act.emit (Ev.hideError (some 3)) ∈
      (makeHide { initProps with shown := true } (some 3) HideCb.resolve).2.1 ∧
     (makeHide { initProps with shown := true } (some 3) HideCb.resolve).2.2 =
       some 3) ∧
    (Act.emit (Ev.hideError (some 4)) ∈
      (makeHide { initProps with shown := true } none (HideCb.syncThrow 4)).2.1 ∧
     (makeHide { initProps with shown := true } none (HideCb.syncThrow 4)).2.2 =
       some 4) ∧
    ((CtrlJs.makeHide ⟨true, false, false⟩ (HideCb.syncThrow 6)).2.2 =
       some 6 ∧
     (∀ d, Act.emit (Ev.hideError d) ∉
       (CtrlJs.makeHide ⟨true, false, false⟩ (HideCb.syncThrow 6)).2.1)) ∧
    (CtrlJs.makeHide ⟨true, false, false⟩ (HideCb.asyncReject 5)).2.2 = none :=
  ⟨(c6_hide_error_signalling { initProps with shown := true } rfl rfl
      ⟨true, false, false⟩ rfl rfl).1 3 HideCb.resolve,
   (c6_hide_error_signalling { initProps with shown := true } rfl rfl
      ⟨true, false, false⟩ rfl rfl).2.1 4,
   (c6_hide_error_signalling { initProps with shown := true } rfl rfl
      ⟨true, false, false⟩ rfl rfl).2.2.1 6,
   ((c6_hide_error_signalling { initProps with shown := true } rfl rfl
      ⟨true, false, false⟩ rfl rfl).2.2.2 5).1⟩

/-- C6 counterexample, covering both cited variants.  part_000: a user
hide callback that rejects asynchronously (error 5) on a shown element —
the full trace contains no "hideError" dispatch, the hide trigger's
promise resolves (`none`) so nothing is re-signaled, and the element is
left stuck with `hidePending = true`.  src/Ctrl.js: its `makeHide` has
no "hideError" dispatch at all — a synchronously throwing hide callback
(error 6) is re-signaled with no notification, and an asynchronously
rejecting one (error 5) produces neither a notification nor a re-signal
(the call returns normally), with `hidePending` stuck in both runs. -/
theorem c6_counterexample_async_hide_rejection_swallowed :
    makeHide { initProps with shown := true } none (HideCb.asyncReject 5) =
      ({ initProps with shown := true, hidePending := true },
       [Act.setHidePending true, Act.spinnerShow, Act.callUnload 0,
        Act.callUserHide 1, Act.removeResume, Act.spinnerHide],
       none) ∧
    CtrlJs.makeHide ⟨true, false, false⟩ (HideCb.syncThrow 6) =
      (⟨true, false, true⟩,
       [Act.setHidePending true, Act.callUserHide 1],
       some 6) ∧
    CtrlJs.makeHide ⟨true, false, false⟩ (HideCb.asyncReject 5) =
      (⟨true, false, true⟩,
       [Act.setHidePending true, Act.callUserHide 1, Act.removeResume],
       none) := by decide

/-- C10: whenever the part_000 hide trigger proceeds past its guards, it
invokes the unload callback with zero arguments — `await unload()` — and
never with the element (every unload invocation in the trace has zero
arguments), even though the default unload callback `async (_el) => ...`
accepts an element parameter. -/
theorem c10_unload_called_with_zero_arguments (p : Props)
    (unloadCb : Option Err) (hideCb : HideCb)
    (hs : p.shown = true) (hhp : p.hidePending = false) :
    Act.callUnload 0 ∈ (makeHide p unloadCb hideCb).2.1 ∧
    (∀ n, Act.callUnload n ∈ (makeHide p unloadCb hideCb).2.1 → n = 0) := by
  rw [makeHide]
  simp only [hs, hhp, Bool.not_true, Bool.false_eq_true, if_false]
  cases unloadCb with
  | some e => simp
  | none =>
      cases hideCb with
      | resolve => simp
      | syncThrow e => simp
      | asyncReject e => simp

/-- C10 witness: concrete hide on a shown element. -/
theorem c10_unload_called_with_zero_arguments_witness :
    Act.callUnload 0 ∈
      (makeHide { initProps with shown := true } none HideCb.resolve).2.1 ∧
    (∀ n, Act.callUnload n ∈
      (makeHide { initProps with shown := true } none HideCb.resolve).2.1 →
      n = 0) :=
  c10_unload_called_with_zero_arguments { initProps with shown := true }
    none HideCb.resolve rfl rfl

end Ctrl

namespace Ctrl

/-- C7: in a dispatch where no handler stops propagation, the handlers
run exactly down the computed order: the non-empty selectors that have a
matching ancestor, each paired with the closest matching ancestor of the
event's original target (its `delegatorTarget`), sorted ascending by
that ancestor's distance from the target (innermost first); selectors
with no matching ancestor are absent; and the empty-selector handler,
paired with the element itself, comes last exactly when it is
registered.  The model's dispatch loop is sequential, so each handler's
invocation (with its `delegatorTarget`) is completed before the next
begins. -/
theorem c7_delegation_order_and_targets (matchesSel : String → Nat → Bool)
    (chain : List Nat) (el : Nat) (selectors : List String)
    (hstop : String → Bool) (hnostop : ∀ s, hstop s = false) :
    (actualEventListener matchesSel chain el selectors hstop).1 =
      delegationOrder matchesSel chain el selectors ∧
    delegationOrder matchesSel chain el selectors =
      sortByKey (fun pr => distance chain pr.2)
        (selectorPairs matchesSel chain
          (selectors.filter (fun t => !(t == "")))) ++
        (if selectors.contains "" then [("", el)] else []) ∧
    List.Pairwise (fun a b => distance chain a.2 ≤ distance chain b.2)
      (sortByKey (fun pr => distance chain pr.2)
        (selectorPairs matchesSel chain
          (selectors.filter (fun t => !(t == ""))))) ∧
    (∀ s n, (s, n) ∈ sortByKey (fun pr => distance chain pr.2)
        (selectorPairs matchesSel chain
          (selectors.filter (fun t => !(t == "")))) ↔
      s ∈ selectors ∧ s ≠ "" ∧ closest matchesSel chain s = some n) := by
  refine ⟨?_, ?_, sorted_sortByKey _ _, ?_⟩
  · rw [actualEventListener, runHandlers_no_stop hstop hnostop]
  · rw [delegationOrder]
    split <;> rename_i hc <;> simp_all
  · intro s n
    rw [mem_sortByKey, mem_selectorPairs]
    simp [List.mem_filter, and_assoc]

/-- C7 witness: the spec's concrete scenario — handlers for "inner" and
"outer" where the "outer" node (2) is an ancestor of the "inner" node
(1) on the target's chain, plus the empty selector: the "inner" handler
runs first, then "outer", then the element's own handler, each with its
matched ancestor. -/
theorem c7_delegation_order_and_targets_witness :
    (actualEventListener
      (fun t m => (t == "inner" && m == 1) || (t == "outer" && m == 2))
      [0, 1, 2, 3] 3 ["outer", "inner", ""] (fun _ => false)).1 =
      delegationOrder
        (fun t m => (t == "inner" && m == 1) || (t == "outer" && m == 2))
        [0, 1, 2, 3] 3 ["outer", "inner", ""] ∧
    delegationOrder
        (fun t m => (t == "inner" && m == 1) || (t == "outer" && m == 2))
        [0, 1, 2, 3] 3 ["outer", "inner", ""] =
      [("inner", 1), ("outer", 2), ("", 3)] :=
  ⟨(c7_delegation_order_and_targets
      (fun t m => (t == "inner" && m == 1) || (t == "outer" && m == 2))
      [0, 1, 2, 3] 3 ["outer", "inner", ""] (fun _ => false)
      (fun _ => rfl)).1,
   by decide⟩

/-- C8: if the handler at some position of the dispatch order calls the
overridden stopPropagation/stopImmediatePropagation (and no earlier
handler did), the original native method is still invoked — the override
forwards to it while setting the halt flag, and the returned flag is
true — and the dispatch performs exactly the invocations up to and
including that handler: no later handler of the same dispatch, the
empty-selector handler included, executes. -/
theorem c8_stop_propagation_halts_dispatch (matchesSel : String → Nat → Bool)
    (chain : List Nat) (el : Nat) (selectors : List String)
    (hstop : String → Bool) (front : List (String × Nat)) (s : String)
    (n : Nat) (post : List (String × Nat))
    (horder : delegationOrder matchesSel chain el selectors =
      front ++ (s, n) :: post)
    (hfront : ∀ q ∈ front, hstop q.1 = false) (hs : hstop s = true) :
    actualEventListener matchesSel chain el selectors hstop =
      (front ++ [(s, n)], true) := by
  rw [actualEventListener, horder]
  exact runHandlers_break hstop front (s, n) post hfront hs

/-- C8 witness: the innermost handler ("inner", the first of the
dispatch order) stops propagation: the native method is invoked (flag
true) and neither the "outer" handler nor the element's own handler
runs. -/
theorem c8_stop_propagation_halts_dispatch_witness :
    actualEventListener
      (fun t m => (t == "inner" && m == 1) || (t == "outer" && m == 2))
      [0, 1, 2, 3] 3 ["outer", "inner", ""] (fun t => t == "inner") =
      ([("inner", 1)], true) :=
  c8_stop_propagation_halts_dispatch
    (fun t m => (t == "inner" && m == 1) || (t == "outer" && m == 2))
    [0, 1, 2, 3] 3 ["outer", "inner", ""] (fun t => t == "inner")
    [] "inner" 1 [("outer", 2), ("", 3)] (by decide) (by decide) (by decide)

end Ctrl
